import Mathlib

/-!
Verification development for the muxado stream multiplexer's heartbeat
wrapper (src/muxado/src/heartbeat.rs) and session reader/builder
(src/muxado/src/session.rs).

The Rust tasks are embedded shallowly: each task loop becomes a step
function on an explicit state, channel interactions and IO results become
explicit inputs, and the effects a loop body performs become an action
list.  Machine integers are modelled as Nat with explicit reductions
modulo 2^w where overflow matters.
-/

/-! ## Shared heartbeat durations

Models the `Arc<(AtomicU64, AtomicU64)>` pair in `HeartbeatCtl`
(heartbeat.rs lines 58-61): interval and tolerance, stored as u64
nanosecond counts.  `set_interval`/`set_tolerance` (lines 136-148) store
into the corresponding field; `get_durations` (lines 342-347) loads both.
-/

structure Durations where
  interval : Nat
  tolerance : Nat
  deriving DecidableEq, Repr

def Durations.set_interval (d : Durations) (i : Nat) : Durations :=
  { d with interval := i % 2 ^ 64 }

def Durations.set_tolerance (d : Durations) (t : Nat) : Durations :=
  { d with tolerance := t % 2 ^ 64 }

/-! ## Heartbeat monitor ("check" task)

Models the loop spawned by `HeartbeatCtl::start_check` (heartbeat.rs
lines 150-197).  Each iteration awaits `timeout_at(deadline, mark.recv())`
whose outcome is one of three events: the deadline elapsed (`Err`), a
latency arrived (`Ok(Some(lat))`), or the mark channel was closed
(`Ok(None)`).  After the timeout and receive cases the loop re-reads the
shared durations and resets the deadline to `now + interval + tolerance`;
the closed case returns from the task.
-/

inductive MonitorEvent where
  | timeout
  | recv (lat : Nat)
  | closed
  deriving DecidableEq, Repr

/-- Deadline computation used both before the loop (heartbeat.rs line 163)
and at each reset (line 188): current instant plus interval plus
tolerance. -/
def monitorDeadline (d : Durations) (now : Nat) : Nat :=
  now + d.interval + d.tolerance

structure MonitorState where
  deadline : Nat
  exited : Bool
  deriving DecidableEq, Repr

/-- Monitor state before the first iteration (heartbeat.rs line 163):
deadline from the spawn-time durations, task alive. -/
def monitorInit (d : Durations) (now : Nat) : MonitorState :=
  { deadline := monitorDeadline d now, exited := false }

/-- One cycle of input to the monitor loop: the event produced by
`timeout_at(deadline, mark.recv())`, the value of the shared durations
pair when re-read by this cycle (heartbeat.rs line 187), and the instant
observed at the deadline reset (line 188). -/
structure MonCycle where
  ev : MonitorEvent
  durs : Durations
  now : Nat
  deriving DecidableEq, Repr

/-- One iteration of the monitor loop body (heartbeat.rs lines 164-189).
Returns the state after the iteration and the list of latencies passed to
the user callback during it (empty when no callback was configured:
`cbPresent = false`).  A task that has returned performs nothing. -/
def monitorStep (cbPresent : Bool) (st : MonitorState) (c : MonCycle) :
    MonitorState × List Nat :=
  if st.exited then (st, [])
  else
    match c.ev with
    | .timeout =>
        ({ deadline := monitorDeadline c.durs c.now, exited := false },
         if cbPresent then [0] else [])
    | .recv lat =>
        ({ deadline := monitorDeadline c.durs c.now, exited := false },
         if cbPresent then [lat] else [])
    | .closed => ({ st with exited := true }, [])

/-- The monitor loop folded over a list of cycles, accumulating callback
invocations. -/
def monitorRun (cbPresent : Bool) (st : MonitorState) :
    List MonCycle → MonitorState × List Nat
  | [] => (st, [])
  | c :: rest =>
      let s1 := monitorStep cbPresent st c
      let s2 := monitorRun cbPresent s1.1 rest
      (s2.1, s1.2 ++ s2.2)

/-! ## Heartbeat requester task

Models the loop spawned by `HeartbeatCtl::start_requester` (heartbeat.rs
lines 199-265).  Before spawning, the task reads the interval once and
builds a ticker from it (lines 205-206); the loop body never touches
the shared durations again.  Each iteration: `select!` between the
on-demand mailbox and the ticker, generate a random 32-bit id, write its
big-endian bytes (exit on error), read 4 bytes back (exit on error),
compare ids (exit on mismatch), then send the measured latency to the
on-demand reply channel if one was taken, else to the monitor's mark
channel.
-/

/-- Big-endian byte encoding of the 32-bit pattern of an id, as written by
`id.to_be_bytes()` (heartbeat.rs line 229). -/
def natToBeBytes (n : Nat) : List Nat :=
  [n / 2 ^ 24 % 256, n / 2 ^ 16 % 256, n / 2 ^ 8 % 256, n % 256]

/-- Big-endian decoding of 4 bytes back to a 32-bit pattern, as done by
`i32::from_be_bytes(resp_bytes)` (heartbeat.rs line 244).  The i32 values
compared by the source are in bijection with their 4-byte patterns, so id
equality is modelled as equality of the unsigned 32-bit patterns. -/
def beBytesToNat : List Nat → Nat
  | [b0, b1, b2, b3] =>
      b0 % 256 * 2 ^ 24 + b1 % 256 * 2 ^ 16 + b2 % 256 * 2 ^ 8 + b3 % 256
  | _ => 0

/-- The ticker built by `start_requester` (heartbeat.rs lines 205-206)
from the interval read once at spawn time.  Nothing in the loop body
rebuilds it or re-reads the durations. -/
structure RequesterTicker where
  period : Nat
  deriving DecidableEq, Repr

def requesterSpawn (spawnDurs : Durations) : RequesterTicker :=
  { period := spawnDurs.interval }

/-- Which arm of the requester's `select!` fired (heartbeat.rs lines
213-222): an on-demand request was received (`resp_chan` becomes `Some`),
the on-demand channel was closed so the tick was awaited instead, or the
ticker fired first. -/
inductive ReqWake where
  | onDemand
  | onDemandClosed
  | tick
  deriving DecidableEq, Repr

/-- Effects one requester iteration can perform: write the id bytes to the
heartbeat stream, send the latency to the on-demand reply channel, or send
the latency to the monitor's mark channel.  The source loop body performs
no other effect; in particular it never emits a session-level frame. -/
inductive ReqAction where
  | writeStream (bytes : List Nat)
  | sendReply (lat : Nat)
  | sendMark (lat : Nat)
  deriving DecidableEq, Repr

/-- Environment of one requester iteration: the random id (unsigned 32-bit
pattern of the `i32` from `rand::random()`, line 227), whether `write_all`
succeeded, the 4 bytes delivered by `read_exact` (`none` on read error),
and the measured latency. -/
structure ReqIterEnv where
  id : Nat
  writeOk : Bool
  readBytes : Option (List Nat)
  latency : Nat
  deriving DecidableEq, Repr

/-- The modulus of unsigned 32-bit patterns. -/
def U32MOD : Nat := 2 ^ 32

/-- One iteration of the requester loop body (heartbeat.rs lines 210-257).
Returns the actions performed and whether the loop continues (`false`
means the task returned). -/
def requesterIter (wake : ReqWake) (env : ReqIterEnv) :
    List ReqAction × Bool :=
  let wrote := [ReqAction.writeStream (natToBeBytes env.id)]
  if !env.writeOk then (wrote, false)
  else
    match env.readBytes with
    | none => (wrote, false)
    | some bs =>
        if env.id % U32MOD ≠ beBytesToNat bs then (wrote, false)
        else
          match wake with
          | .onDemand => (wrote ++ [ReqAction.sendReply env.latency], true)
          | _ => (wrote ++ [ReqAction.sendMark env.latency], true)

/-! ## On-demand beat

Models `HeartbeatCtl::beat` (heartbeat.rs lines 126-134).  The
`on_demand.send(tx)` fails exactly when the receiver end was dropped,
which happens when the requester task has returned; that failure maps to
`NotConnected`.  Otherwise `rx.await` fails with `ConnectionReset` when
the requester dropped the oneshot sender without replying, and yields the
latency when the requester replied.
-/

inductive IoErr where
  | notConnected
  | connectionReset
  deriving DecidableEq, Repr

def beat (requesterAlive : Bool) (reply : Option Nat) : Except IoErr Nat :=
  if !requesterAlive then .error .notConnected
  else
    match reply with
    | none => .error .connectionReset
    | some lat => .ok lat

/-! ## Heartbeat responder

Models `start_responder` (heartbeat.rs lines 272-286).  Each iteration
declares a fresh zero-initialized 4-byte buffer, calls `read` (plain
`AsyncReadExt::read`: it may fill fewer than 4 bytes, and end-of-stream is
a successful zero-byte read `Ok(0)`, not an `Err`), then `write_all`s the
whole 4-byte buffer.  The loop returns only when `read` or `write_all`
returns `Err`.
-/

/-- Outcome of the `read` call: an IO error, or success with the bytes
actually placed in the buffer (between 0 and 4 of them; 0 at
end-of-stream). -/
inductive ReadResult where
  | err
  | ok (bytes : List Nat)
  deriving DecidableEq, Repr

/-- Contents of the responder's 4-byte buffer after `read` put `bs` into
it: the bytes read, then the untouched zero initialization. -/
def responderBuf (bs : List Nat) : List Nat :=
  bs.take 4 ++ List.replicate (4 - (bs.take 4).length) 0

/-- Result of one responder iteration: the loop returned (with the bytes
it attempted to write, if the write was reached), or continues after
writing the buffer. -/
inductive RespStep where
  | exit (wrote : Option (List Nat))
  | cont (wrote : List Nat)
  deriving DecidableEq, Repr

/-- One iteration of the responder loop (heartbeat.rs lines 274-283). -/
def responderIter (r : ReadResult) (writeOk : Bool) : RespStep :=
  match r with
  | .err => .exit none
  | .ok bs =>
      let buf := responderBuf bs
      if writeOk then .cont buf else .exit (some buf)

/-! ## Heartbeat typed-session wrapper

Models the `TypedAccept` and `TypedOpen` implementations for
`Heartbeat<S>` (heartbeat.rs lines 288-321).  The wrapper's type tag is
`HEARTBEAT_TYPE = StreamType::clamp(0xFFFFFFFF)` (line 45).
-/

def HEARTBEAT_TYPE : Nat := 0xFFFFFFFF

/-- Errors of muxado's `Error` enum that this development touches. -/
inductive ErrorM where
  | protocol
  | streamClosed
  | sessionClosed
  | remoteGoneAway
  | streamRefused
  | streamsExhausted
  deriving DecidableEq, Repr

structure TypedStreamM where
  typ : Nat
  deriving DecidableEq, Repr

/-- The `accept_typed` loop of `Heartbeat<S>` (heartbeat.rs lines
293-305) driven by the successive results of the inner session's
`accept_typed`.  Returns the streams handed to `start_responder`
(those whose type equals the wrapper's heartbeat type) and the result
returned to the caller: `none` when the supplied inner results are
exhausted with the loop still accepting. -/
def accept_typed (hbTyp : Nat) :
    List (Except ErrorM TypedStreamM) →
      List TypedStreamM × Option (Except ErrorM TypedStreamM)
  | [] => ([], none)
  | .error e :: _ => ([], some (.error e))
  | .ok s :: rest =>
      if s.typ = hbTyp then
        let r := accept_typed hbTyp rest
        (s :: r.1, r.2)
      else ([], some (.ok s))

/-- The `open_typed` of `Heartbeat<S>` (heartbeat.rs lines 313-320).
Returns whether the inner session's `open_typed` was invoked, and the
result handed to the caller (`innerResult` models what the inner open
would return). -/
def open_typed (hbTyp : Nat) (typ : Nat)
    (innerResult : Except ErrorM TypedStreamM) :
    Bool × Except ErrorM TypedStreamM :=
  if typ = hbTyp then (false, .error .streamRefused)
  else (true, innerResult)

/-! ## Session reader task

Models `Reader::handle_frame` and `Reader::run` (session.rs lines
158-268).  A frame is its header fields plus, for GOAWAY frames, the
error carried by the `Body::GoAway` body (the codec only produces GOAWAY
frames with a GoAway body, so the source's `unreachable!()` arm is not
modelled).  Results of the manager and channel calls the reader makes are
explicit inputs.
-/

inductive HeaderTypeM where
  | data
  | wndInc
  | rst
  | goAway
  | invalid (raw : Nat)
  deriving DecidableEq, Repr

structure FrameM where
  syn : Bool
  fin : Bool
  typ : HeaderTypeM
  streamId : Nat
  goAwayError : ErrorM
  deriving DecidableEq, Repr

/-- Frames the reader can emit on the system channel `sys_tx`. -/
inductive SysFrame where
  | rstF (id : Nat) (e : ErrorM)
  | goawayF (id : Nat) (e : ErrorM) (msg : String)
  deriving DecidableEq, Repr

/-- Effects one `handle_frame` call can perform. -/
inductive ReaderAction where
  | createStream (id : Nat)
  | acceptPush
  | deliver (typ : HeaderTypeM) (id : Nat)
  | sysSend (f : SysFrame)
  | managerGoAway (e : ErrorM)
  | setDataWriteClosed (id : Nat)
  | closeSenders
  deriving DecidableEq, Repr

/-- Outcomes of the calls `handle_frame` makes into its environment:
`manager.create_stream` (an error value on failure), the
`accept_tx.send`, `manager.send_to_stream` (an error value on failure),
the `sys_tx.send`, and `manager.get_stream` for the FIN bookkeeping. -/
structure ReaderEnv where
  createResult : Option ErrorM
  acceptSendOk : Bool
  deliverResult : Option ErrorM
  sysSendOk : Bool
  getStreamOk : Bool
  deriving DecidableEq, Repr

/-- The `match typ` body of `handle_frame` (session.rs lines 199-245),
acting on the reader's `last_stream_processed` value.  Returns the new
`last_stream_processed`, the actions performed, and the `Result` of the
call. -/
def handleFrameBody (last : Nat) (env : ReaderEnv) (f : FrameM) :
    Nat × List ReaderAction × Except ErrorM Unit :=
  match f.typ with
  | .data | .rst | .wndInc =>
      match env.deliverResult with
      | some e =>
          (last,
           [ReaderAction.deliver f.typ f.streamId,
            ReaderAction.sysSend (.rstF f.streamId e)],
           if env.sysSendOk then .ok () else .error .sessionClosed)
      | none =>
          (f.streamId,
           ReaderAction.deliver f.typ f.streamId ::
             (if f.fin && env.getStreamOk then
                [ReaderAction.setDataWriteClosed f.streamId]
              else []),
           .ok ())
  | .goAway =>
      (last, [ReaderAction.managerGoAway f.goAwayError],
       .error .remoteGoneAway)
  | .invalid _ =>
      (last,
       [ReaderAction.sysSend (.goawayF last .protocol ("invalid frame"))],
       if env.sysSendOk then .ok () else .error .streamClosed)

/-- `Reader::handle_frame` (session.rs lines 172-247): the SYN prologue
(create the remote-opened stream and push it to the accept queue,
propagating failures), then the per-type dispatch. -/
def handle_frame (last : Nat) (env : ReaderEnv) (f : FrameM) :
    Nat × List ReaderAction × Except ErrorM Unit :=
  if f.syn then
    match env.createResult with
    | some e => (last, [ReaderAction.createStream f.streamId], .error e)
    | none =>
        if env.acceptSendOk then
          let r := handleFrameBody last env f
          (r.1,
           ReaderAction.createStream f.streamId ::
             ReaderAction.acceptPush :: r.2.1,
           r.2.2)
        else
          (last, [ReaderAction.createStream f.streamId,
                  ReaderAction.acceptPush],
           .error .sessionClosed)
  else handleFrameBody last env f

/-- One item pulled from the framed transport by `Reader::run`
(session.rs lines 251-267): a decoded frame (with the environment
outcomes for handling it), or end-of-stream / transport error. -/
inductive IoEvent where
  | frame (f : FrameM) (env : ReaderEnv)
  | closedOrErr
  deriving DecidableEq, Repr

/-- `Reader::run` folded over a list of transport items.  Returns the
final `last_stream_processed`, the actions performed, and `some e` with
the loop's terminal error once it exits (after which `close_senders` is
called and the task returns `SessionClosed`); `none` while the supplied
items are exhausted with the loop still reading.  The terminal error is
always `SessionClosed` (session.rs line 266). -/
def reader_run (last : Nat) : List IoEvent → Nat × List ReaderAction × Option ErrorM
  | [] => (last, [], none)
  | .closedOrErr :: _ =>
      (last, [ReaderAction.closeSenders], some .sessionClosed)
  | .frame f env :: rest =>
      let h := handle_frame last env f
      match h.2.2 with
      | .ok _ =>
          let r := reader_run h.1 rest
          (r.1, h.2.1 ++ r.2.1, r.2.2)
      | .error _ =>
          (h.1, h.2.1 ++ [ReaderAction.closeSenders], some .sessionClosed)

/-! ## Session builder

Models `SessionBuilder` (session.rs lines 42-153): the three default
constants, the builder constructor, the setters, and the parameters
`start` wires into the reader, writer, accept channel, and stream
manager.
-/

def DEFAULT_WINDOW : Nat := 0x40000
def DEFAULT_ACCEPT : Nat := 64
def DEFAULT_STREAMS : Nat := 512

structure SessionBuilderM where
  window : Nat
  accept_queue_size : Nat
  stream_limit : Nat
  client : Bool
  deriving DecidableEq, Repr

def SessionBuilderM.new : SessionBuilderM :=
  { window := DEFAULT_WINDOW
    accept_queue_size := DEFAULT_ACCEPT
    stream_limit := DEFAULT_STREAMS
    client := true }

def SessionBuilderM.window_size (b : SessionBuilderM) (size : Nat) :
    SessionBuilderM :=
  { b with window := size }

def SessionBuilderM.set_accept_queue_size (b : SessionBuilderM) (size : Nat) :
    SessionBuilderM :=
  { b with accept_queue_size := size }

def SessionBuilderM.set_stream_limit (b : SessionBuilderM) (count : Nat) :
    SessionBuilderM :=
  { b with stream_limit := count }

def SessionBuilderM.set_client (b : SessionBuilderM) : SessionBuilderM :=
  { b with client := true }

def SessionBuilderM.set_server (b : SessionBuilderM) : SessionBuilderM :=
  { b with client := false }

/-- The session parameters `SessionBuilder::start` (session.rs lines
111-152) distributes: the window handed to both the reader and the
writer, the accept channel's capacity, and the limit and role given to
`StreamManager::new`. -/
structure SessionParams where
  readerWindow : Nat
  writerWindow : Nat
  acceptCapacity : Nat
  managerLimit : Nat
  managerClient : Bool
  deriving DecidableEq, Repr

def SessionBuilderM.start (b : SessionBuilderM) : SessionParams :=
  { readerWindow := b.window
    writerWindow := b.window
    acceptCapacity := b.accept_queue_size
    managerLimit := b.stream_limit
    managerClient := b.client }

/-! ## Derived definitions used by the theorems -/

/-- Whether a header type is one of the stream-specific types that
`handle_frame` routes through `manager.send_to_stream` (session.rs line
201). -/
def deliversToStream : HeaderTypeM → Bool
  | .data | .wndInc | .rst => true
  | _ => false

/-- The monitor's input cycles from the moment the requester task has
returned: the requester held the only sender of the mark channel
(heartbeat.rs lines 103, 118, 203), so its exit closes the channel.  A
closed tokio mpsc channel yields its buffered values and then `None`,
each immediately; `timeout_at` polls the inner future before the timer,
so a ready receive pre-empts an expired deadline.  Hence after the exit
the monitor sees the buffered latencies, then the channel-closed event,
and never a timeout. -/
def postExitCycles (buffered : List Nat) (d : Durations) (now : Nat) :
    List MonCycle :=
  buffered.map (fun l => { ev := .recv l, durs := d, now := now }) ++
    [{ ev := .closed, durs := d, now := now }]

/-! ## Helper lemmas -/

theorem monitorRun_exited (cb : Bool) (dl : Nat) (l : List MonCycle) :
    monitorRun cb { deadline := dl, exited := true } l =
      ({ deadline := dl, exited := true }, []) := by
  induction l with
  | nil => rfl
  | cons c rest ih => simp [monitorRun, monitorStep, ih]

theorem monitorRun_timeouts (cycles : List MonCycle)
    (h : ∀ c ∈ cycles, c.ev = MonitorEvent.timeout) (dl : Nat) :
    (monitorRun true { deadline := dl, exited := false } cycles).2 =
        List.replicate cycles.length 0 ∧
      (monitorRun true { deadline := dl, exited := false } cycles).1.exited =
        false := by
  induction cycles generalizing dl with
  | nil => simp [monitorRun]
  | cons c rest ih =>
      have hc : c.ev = MonitorEvent.timeout := h c (List.mem_cons_self c rest)
      have hr : ∀ x ∈ rest, x.ev = MonitorEvent.timeout :=
        fun x hx => h x (List.mem_cons_of_mem c hx)
      have hs : monitorStep true { deadline := dl, exited := false } c =
          ({ deadline := monitorDeadline c.durs c.now, exited := false },
           [0]) := by
        simp [monitorStep, hc]
      have := ih hr (monitorDeadline c.durs c.now)
      simp [monitorRun, hs, this.1, this.2, List.replicate_succ]

theorem monitorRun_postExit (buffered : List Nat) (d : Durations)
    (now dl : Nat) (extra : List MonCycle) :
    (monitorRun true { deadline := dl, exited := false }
        (postExitCycles buffered d now ++ extra)).2 = buffered ∧
      (monitorRun true { deadline := dl, exited := false }
        (postExitCycles buffered d now ++ extra)).1.exited = true := by
  induction buffered generalizing dl with
  | nil =>
      simp [postExitCycles, monitorRun, monitorStep, monitorRun_exited]
  | cons lat rest ih =>
      have hs : monitorStep true { deadline := dl, exited := false }
          { ev := .recv lat, durs := d, now := now } =
          ({ deadline := monitorDeadline d now, exited := false }, [lat]) := by
        simp [monitorStep]
      have := ih (monitorDeadline d now)
      simp only [postExitCycles, List.map_cons, List.cons_append,
        List.append_assoc, List.singleton_append, List.nil_append,
        monitorRun, hs] at this ⊢
      simp [this.1, this.2]

theorem accept_typed_spec (hbTyp : Nat)
    (inputs : List (Except ErrorM TypedStreamM)) :
    (∀ r ∈ (accept_typed hbTyp inputs).1, r.typ = hbTyp) ∧
      (∀ s, (accept_typed hbTyp inputs).2 = some (.ok s) → s.typ ≠ hbTyp) := by
  induction inputs with
  | nil => simp [accept_typed]
  | cons x rest ih =>
      cases x with
      | error e => simp [accept_typed]
      | ok s0 =>
          by_cases h : s0.typ = hbTyp
          · refine ⟨?_, ?_⟩
            · intro r hr
              simp only [accept_typed, if_pos h] at hr
              rcases List.mem_cons.mp hr with h1 | h2
              · rw [h1, h]
              · exact ih.1 r h2
            · intro s hsome
              simp only [accept_typed, if_pos h] at hsome
              exact ih.2 s hsome
          · refine ⟨?_, ?_⟩
            · intro r hr
              simp [accept_typed, if_neg h] at hr
            · intro s hsome
              simp only [accept_typed, if_neg h, Option.some.injEq,
                Except.ok.injEq] at hsome
              rw [← hsome]
              exact h

theorem requesterIter_continue_iff (wake : ReqWake) (env : ReqIterEnv) :
    (requesterIter wake env).2 =
      (env.writeOk &&
        match env.readBytes with
        | none => false
        | some bs => env.id % U32MOD == beBytesToNat bs) := by
  obtain ⟨i, w, rb, lat⟩ := env
  cases w with
  | false => cases rb <;> rfl
  | true =>
      cases rb with
      | none => rfl
      | some bs =>
          cases wake <;>
            by_cases h : i % U32MOD = beBytesToNat bs <;>
            simp [requesterIter, h]

theorem handle_frame_last (last : Nat) (env : ReaderEnv) (f : FrameM) :
    (handle_frame last env f).1 =
      if (!f.syn || (env.createResult.isNone && env.acceptSendOk))
          && deliversToStream f.typ && env.deliverResult.isNone
      then f.streamId else last := by
  obtain ⟨syn, fin, typ, sid, gae⟩ := f
  obtain ⟨cr, ao, dr, so, go⟩ := env
  cases syn <;> cases cr <;> cases ao <;> cases typ <;> cases dr <;>
    simp [handle_frame, handleFrameBody, deliversToStream]

theorem handle_frame_goaway (last : Nat) (env : ReaderEnv) (f : FrameM)
    (id : Nat) (e : ErrorM) (m : String)
    (hmem : ReaderAction.sysSend (.goawayF id e m) ∈ (handle_frame last env f).2.1) :
    id = last ∧ e = ErrorM.protocol ∧ m = "invalid frame" := by
  obtain ⟨syn, fin, typ, sid, gae⟩ := f
  obtain ⟨cr, ao, dr, so, go⟩ := env
  cases syn <;> cases cr <;> cases ao <;> cases typ <;> cases dr <;>
    cases fin <;> cases go <;>
    simp [handle_frame, handleFrameBody] at hmem <;>
    simp [hmem.1, hmem.2.1, hmem.2.2]

/-! ## Claim theorems -/

/-- Claim C1, counterexample.  With a well-behaved environment, the
reader's `handle_frame` on a frame of invalid type 0xAA returns `Ok`, and
the read loop goes on to process a following DATA frame (its `deliver`
action appears after the GOAWAY emission, and the loop is still reading:
result component `none`).  This refutes the claim that after the GOAWAY
emission the reader exits and no further frames from the peer are
processed. -/
theorem C1_counterexample :
    (handle_frame 0
        { createResult := none, acceptSendOk := true, deliverResult := none,
          sysSendOk := true, getStreamOk := true }
        { syn := false, fin := false, typ := HeaderTypeM.invalid 0xAA,
          streamId := 0, goAwayError := ErrorM.protocol }).2.2 = Except.ok ()
    ∧ reader_run 0
        [IoEvent.frame
          { syn := false, fin := false, typ := HeaderTypeM.invalid 0xAA,
            streamId := 0, goAwayError := ErrorM.protocol }
          { createResult := none, acceptSendOk := true, deliverResult := none,
            sysSendOk := true, getStreamOk := true },
         IoEvent.frame
          { syn := false, fin := false, typ := HeaderTypeM.data,
            streamId := 1, goAwayError := ErrorM.protocol }
          { createResult := none, acceptSendOk := true, deliverResult := none,
            sysSendOk := true, getStreamOk := true }] =
      (1,
       [ReaderAction.sysSend
          (SysFrame.goawayF 0 ErrorM.protocol ("invalid frame")),
        ReaderAction.deliver HeaderTypeM.data 1],
       none) :=
  ⟨rfl, rfl⟩

/-- Claim C1, amended: when the reader dequeues a frame whose type is not
one of DATA, WND_INC, RST, GOAWAY, it emits GOAWAY(PROTOCOL_ERROR,
"invalid frame") on the system channel, but the read loop then continues
and further frames from the peer keep being processed; the reader exits
on such a frame only when the system-channel send itself fails (with
StreamClosed). -/
theorem C1_invalid_frame_goaway_then_continue
    (last : Nat) (env : ReaderEnv) (f : FrameM) (raw : Nat)
    (hs : f.syn = false) (ht : f.typ = HeaderTypeM.invalid raw) :
    handle_frame last env f =
      (last,
       [ReaderAction.sysSend
          (SysFrame.goawayF last ErrorM.protocol ("invalid frame"))],
       if env.sysSendOk then Except.ok () else Except.error ErrorM.streamClosed)
    ∧ (env.sysSendOk = true → ∀ rest,
        reader_run last (IoEvent.frame f env :: rest) =
          ((reader_run last rest).1,
           ReaderAction.sysSend
               (SysFrame.goawayF last ErrorM.protocol ("invalid frame"))
             :: (reader_run last rest).2.1,
           (reader_run last rest).2.2)) := by
  have h1 : handle_frame last env f =
      (last,
       [ReaderAction.sysSend
          (SysFrame.goawayF last ErrorM.protocol ("invalid frame"))],
       if env.sysSendOk then Except.ok ()
       else Except.error ErrorM.streamClosed) := by
    simp [handle_frame, handleFrameBody, hs, ht]
  refine ⟨h1, ?_⟩
  intro hso rest
  simp [reader_run, h1, hso]

/-- Witness for the amended C1 theorem at a concrete frame. -/
theorem C1_witness :
    handle_frame 3
        { createResult := none, acceptSendOk := true, deliverResult := none,
          sysSendOk := true, getStreamOk := true }
        { syn := false, fin := false, typ := HeaderTypeM.invalid 170,
          streamId := 9, goAwayError := ErrorM.protocol } =
      (3,
       [ReaderAction.sysSend
          (SysFrame.goawayF 3 ErrorM.protocol ("invalid frame"))],
       Except.ok ()) := by
  have h := C1_invalid_frame_goaway_then_continue 3
      { createResult := none, acceptSendOk := true, deliverResult := none,
        sysSendOk := true, getStreamOk := true }
      { syn := false, fin := false, typ := HeaderTypeM.invalid 170,
        streamId := 9, goAwayError := ErrorM.protocol } 170 rfl rfl
  simpa using h.1

/-- Claim C2: in every monitor iteration whose deadline expires before a
latency arrives, the callback (when present) is invoked with latency 0,
the deadline is reset to now + interval + tolerance (with the per-cycle
re-read durations), and the loop continues; hence on a silent peer a run
of n consecutive expiries fires the callback n times with 0 and never
exits. -/
theorem C2_monitor_timeout_keeps_looping
    (d : Durations) (now dl : Nat) (cycles : List MonCycle)
    (h : ∀ c ∈ cycles, c.ev = MonitorEvent.timeout) :
    monitorStep true { deadline := dl, exited := false }
        { ev := MonitorEvent.timeout, durs := d, now := now } =
      ({ deadline := now + d.interval + d.tolerance, exited := false }, [0])
    ∧ monitorStep false { deadline := dl, exited := false }
        { ev := MonitorEvent.timeout, durs := d, now := now } =
      ({ deadline := now + d.interval + d.tolerance, exited := false }, [])
    ∧ (monitorRun true { deadline := dl, exited := false } cycles).2 =
        List.replicate cycles.length 0
    ∧ (monitorRun true { deadline := dl, exited := false } cycles).1.exited =
        false :=
  ⟨rfl, rfl, (monitorRun_timeouts cycles h dl).1,
   (monitorRun_timeouts cycles h dl).2⟩

/-- Witness for C2 on a concrete two-expiry run. -/
theorem C2_witness :
    (monitorRun true { deadline := 0, exited := false }
        [{ ev := MonitorEvent.timeout, durs := { interval := 1, tolerance := 2 },
           now := 5 },
         { ev := MonitorEvent.timeout, durs := { interval := 3, tolerance := 4 },
           now := 9 }]).2 = List.replicate 2 0 := by
  have h := C2_monitor_timeout_keeps_looping { interval := 1, tolerance := 2 } 5 0
      [{ ev := MonitorEvent.timeout, durs := { interval := 1, tolerance := 2 },
         now := 5 },
       { ev := MonitorEvent.timeout, durs := { interval := 3, tolerance := 4 },
         now := 9 }] (by decide)
  exact h.2.2.1

/-- Claim C3, counterexample.  Start the heartbeat with interval 10 ns and
tolerance 15 ns, then store interval 5 ns via set_interval.  The
requester's ticker period — fixed when `start_requester` read the
durations once before spawning — is still 10, not the newly stored 5, so
the claim that every later requester cycle uses the newly stored interval
is false. -/
theorem C3_counterexample :
    (requesterSpawn { interval := 10, tolerance := 15 }).period = 10
    ∧ (Durations.set_interval { interval := 10, tolerance := 15 } 5).interval = 5
    ∧ ¬ ((requesterSpawn { interval := 10, tolerance := 15 }).period =
        (Durations.set_interval { interval := 10, tolerance := 15 } 5).interval) := by
  refine ⟨rfl, ?_, ?_⟩ <;> decide

/-- Claim C3, amended: the monitor re-reads interval and tolerance from
the shared pair at each cycle, so every monitor deadline reset after a
set_interval/set_tolerance call uses the newly stored values; the
requester, however, reads the interval only once at spawn time to build
its ticker, so its send period is the spawn-time interval and is not
affected by later stores. -/
theorem C3_monitor_rereads_requester_does_not
    (store : Durations) (now dl lat : Nat) (spawnD : Durations) :
    (monitorStep true { deadline := dl, exited := false }
        { ev := MonitorEvent.timeout, durs := store, now := now }).1.deadline =
      now + store.interval + store.tolerance
    ∧ (monitorStep true { deadline := dl, exited := false }
        { ev := MonitorEvent.recv lat, durs := store, now := now }).1.deadline =
      now + store.interval + store.tolerance
    ∧ (requesterSpawn spawnD).period = spawnD.interval :=
  ⟨rfl, rfl, rfl⟩

/-- Claim C4: when the 4 echoed bytes decode to an id different from the
one sent, the requester iteration performs only the stream write and then
the task returns; it sends nothing to the reply or mark channels, and the
requester's effect alphabet (which enumerates every effect of the source
loop body) contains no session-level frame, so nothing session-fatal is
generated. -/
theorem C4_echo_mismatch_exits_requester_only
    (wake : ReqWake) (env : ReqIterEnv) (bs : List Nat)
    (hw : env.writeOk = true) (hr : env.readBytes = some bs)
    (hm : env.id % U32MOD ≠ beBytesToNat bs) :
    requesterIter wake env =
      ([ReqAction.writeStream (natToBeBytes env.id)], false) := by
  cases wake <;> simp [requesterIter, hw, hr, hm]

/-- Witness for C4: id 1 sent, bytes decoding to 2 echoed. -/
theorem C4_witness :
    requesterIter ReqWake.tick
        { id := 1, writeOk := true, readBytes := some [0, 0, 0, 2],
          latency := 5 } =
      ([ReqAction.writeStream (natToBeBytes 1)], false) :=
  C4_echo_mismatch_exits_requester_only ReqWake.tick
    { id := 1, writeOk := true, readBytes := some [0, 0, 0, 2], latency := 5 }
    [0, 0, 0, 2] rfl rfl (by decide)

/-- Claim C5, counterexample.  End-of-stream is a successful zero-byte
`read` (`Ok(0)`), not an error: the responder then writes the four
untouched zero bytes of its buffer and continues looping, contradicting
"reads exactly 4 bytes", "exits on any error (including end-of-stream)"
and "never writes back bytes that were not read in the current
iteration".  A short read of 2 bytes likewise makes it write 2 bytes it
never read. -/
theorem C5_counterexample :
    responderIter (ReadResult.ok []) true = RespStep.cont [0, 0, 0, 0]
    ∧ responderIter (ReadResult.ok [7, 8]) true = RespStep.cont [7, 8, 0, 0] :=
  ⟨rfl, rfl⟩

/-- Claim C5, amended: each responder iteration reads up to 4 bytes into
a fresh zero-initialized 4-byte buffer and writes the whole 4-byte buffer
back (the bytes read, then zero padding); it exits exactly when the read
or the write returns an error, while end-of-stream is a successful
zero-byte read after which it writes four zero bytes and continues. -/
theorem C5_responder_zero_pads_and_exits_only_on_err
    (bs : List Nat) (w : Bool) :
    responderIter ReadResult.err w = RespStep.exit none
    ∧ responderIter (ReadResult.ok bs) w =
        (if w then RespStep.cont (responderBuf bs)
         else RespStep.exit (some (responderBuf bs)))
    ∧ (responderBuf bs).length = 4
    ∧ (responderBuf bs).take (bs.take 4).length = bs.take 4 := by
  refine ⟨rfl, rfl, ?_, ?_⟩
  · simp [responderBuf]
  · exact List.take_left (bs.take 4) (List.replicate (4 - (bs.take 4).length) 0)

/-- Claim C6: a satisfied on-demand beat sends the measured latency to
the one-shot reply channel and nothing to the monitor's mark channel (so
the monitor's deadline is not reset by it), and `beat()` fails with
NotConnected whenever the requester task has already exited (its mailbox
receiver is dropped, so the mailbox send fails). -/
theorem C6_beat_reply_not_mark
    (env : ReqIterEnv) (bs : List Nat) (reply : Option Nat)
    (hw : env.writeOk = true) (hr : env.readBytes = some bs)
    (hm : env.id % U32MOD = beBytesToNat bs) :
    requesterIter ReqWake.onDemand env =
      ([ReqAction.writeStream (natToBeBytes env.id),
        ReqAction.sendReply env.latency], true)
    ∧ (∀ l, ReqAction.sendMark l ∉ (requesterIter ReqWake.onDemand env).1)
    ∧ beat false reply = Except.error IoErr.notConnected := by
  have h1 : requesterIter ReqWake.onDemand env =
      ([ReqAction.writeStream (natToBeBytes env.id),
        ReqAction.sendReply env.latency], true) := by
    simp [requesterIter, hw, hr, hm]
  refine ⟨h1, ?_, rfl⟩
  intro l
  rw [h1]
  simp

/-- Witness for C6 at a concrete successful on-demand exchange and a
beat against an exited requester. -/
theorem C6_witness :
    requesterIter ReqWake.onDemand
        { id := 1, writeOk := true, readBytes := some [0, 0, 0, 1],
          latency := 7 } =
      ([ReqAction.writeStream (natToBeBytes 1), ReqAction.sendReply 7], true)
    ∧ beat false (some 3) = Except.error IoErr.notConnected := by
  have h := C6_beat_reply_not_mark
      { id := 1, writeOk := true, readBytes := some [0, 0, 0, 1], latency := 7 }
      [0, 0, 0, 1] (some 3) rfl rfl (by decide)
  exact ⟨h.1, h.2.2⟩

/-- Claim C7: the reserved heartbeat stream type never crosses the
wrapper's user interface — whenever the wrapper's accept loop returns a
stream it has a type different from the heartbeat type, every stream it
instead routes to a responder has exactly the heartbeat type, and a user
open of the heartbeat type fails with StreamRefused without invoking the
inner open, while any other type is passed through. -/
theorem C7_heartbeat_type_never_crosses_api
    (inputs : List (Except ErrorM TypedStreamM)) (s : TypedStreamM)
    (rs : List TypedStreamM) (typ : Nat) (inner : Except ErrorM TypedStreamM)
    (hacc : accept_typed HEARTBEAT_TYPE inputs = (rs, some (Except.ok s))) :
    s.typ ≠ HEARTBEAT_TYPE
    ∧ (∀ r ∈ rs, r.typ = HEARTBEAT_TYPE)
    ∧ open_typed HEARTBEAT_TYPE HEARTBEAT_TYPE inner =
        (false, Except.error ErrorM.streamRefused)
    ∧ (typ ≠ HEARTBEAT_TYPE →
        open_typed HEARTBEAT_TYPE typ inner = (true, inner)) := by
  have h := accept_typed_spec HEARTBEAT_TYPE inputs
  refine ⟨?_, ?_, ?_, ?_⟩
  · apply h.2
    rw [hacc]
  · intro r hr
    apply h.1
    rw [hacc]
    exact hr
  · simp [open_typed]
  · intro ht
    simp [open_typed, ht]

/-- Witness for C7: one heartbeat-typed stream routed to the responder,
then a stream of type 5 returned to the user; opens of the reserved and
of an ordinary type. -/
theorem C7_witness :
    (({ typ := 5 } : TypedStreamM).typ ≠ HEARTBEAT_TYPE)
    ∧ open_typed HEARTBEAT_TYPE HEARTBEAT_TYPE
        (Except.error ErrorM.sessionClosed) =
      (false, Except.error ErrorM.streamRefused)
    ∧ open_typed HEARTBEAT_TYPE 5 (Except.ok ({ typ := 5 } : TypedStreamM)) =
      (true, Except.ok ({ typ := 5 } : TypedStreamM)) := by
  have h := C7_heartbeat_type_never_crosses_api
      [Except.ok ({ typ := HEARTBEAT_TYPE } : TypedStreamM),
       Except.ok ({ typ := 5 } : TypedStreamM)]
      ({ typ := 5 } : TypedStreamM)
      [({ typ := HEARTBEAT_TYPE } : TypedStreamM)] 5
      (Except.ok ({ typ := 5 } : TypedStreamM)) rfl
  exact ⟨h.1, h.2.2.1, h.2.2.2 (by decide)⟩

/-- Claim C8: `handle_frame` moves `last_stream_processed` to the frame's
stream id exactly when the frame is stream-specific (DATA, WND_INC, RST),
its delivery to the stream succeeded, and (for SYN frames) the stream
creation and accept push succeeded first — never on delivery failure or
for GOAWAY/invalid frames; and every GOAWAY the reader itself emits
carries the current `last_stream_processed` as its stream id (with
PROTOCOL_ERROR and the "invalid frame" message). -/
theorem C8_last_stream_processed_and_goaway
    (last : Nat) (env : ReaderEnv) (f : FrameM) :
    ((handle_frame last env f).1 =
      if (!f.syn || (env.createResult.isNone && env.acceptSendOk))
          && deliversToStream f.typ && env.deliverResult.isNone
      then f.streamId else last)
    ∧ (∀ id e m,
        ReaderAction.sysSend (SysFrame.goawayF id e m) ∈
            (handle_frame last env f).2.1 →
          id = last ∧ e = ErrorM.protocol ∧ m = "invalid frame") :=
  ⟨handle_frame_last last env f,
   fun id e m hmem => handle_frame_goaway last env f id e m hmem⟩

/-- Witness for C8: an invalid frame arriving while
`last_stream_processed` is 7 leaves it at 7, and the generated GOAWAY
carries id 7. -/
theorem C8_witness :
    (handle_frame 7
        { createResult := none, acceptSendOk := true, deliverResult := none,
          sysSendOk := true, getStreamOk := true }
        { syn := false, fin := false, typ := HeaderTypeM.invalid 170,
          streamId := 9, goAwayError := ErrorM.protocol }).1 = 7
    ∧ (7 = 7 ∧ ErrorM.protocol = ErrorM.protocol ∧
        ("invalid frame" : String) = "invalid frame") := by
  have h := C8_last_stream_processed_and_goaway 7
      { createResult := none, acceptSendOk := true, deliverResult := none,
        sysSendOk := true, getStreamOk := true }
      { syn := false, fin := false, typ := HeaderTypeM.invalid 170,
        streamId := 9, goAwayError := ErrorM.protocol }
  refine ⟨?_, h.2 7 ErrorM.protocol "invalid frame" ?_⟩
  · simpa using h.1
  · exact List.mem_singleton_self _

/-- Claim C9: a builder fresh from `new` started without any setter uses
initial window 0x40000 for both reader and writer, accept-queue capacity
64, stream limit 512, and the client role; and each of the four values is
changed by its corresponding setter before start. -/
theorem C9_builder_defaults_and_setters :
    SessionBuilderM.new.start =
      { readerWindow := 0x40000, writerWindow := 0x40000,
        acceptCapacity := 64, managerLimit := 512, managerClient := true }
    ∧ (∀ (b : SessionBuilderM) (n : Nat),
        (b.window_size n).start.readerWindow = n
        ∧ (b.window_size n).start.writerWindow = n
        ∧ (b.set_accept_queue_size n).start.acceptCapacity = n
        ∧ (b.set_stream_limit n).start.managerLimit = n
        ∧ b.set_client.start.managerClient = true
        ∧ b.set_server.start.managerClient = false) :=
  ⟨rfl, fun _ _ => ⟨rfl, rfl, rfl, rfl, rfl, rfl⟩⟩

/-- Claim C10: the requester loop continues exactly when the write
succeeded, the echo read succeeded, and the echoed id matches — so any
write/read failure or id mismatch makes the task return, dropping the
sole sender of the mark channel; from that point the monitor's cycles are
the buffered latencies followed by the channel-closed receive
(`postExitCycles`), on which it emits exactly the buffered latencies,
performs no callback on the closed receive, exits, and stays inert on any
further cycles — in particular no latency-0 missed-heartbeat callbacks
fire after the requester is gone. -/
theorem C10_no_more_callbacks_after_requester_exit
    (wake : ReqWake) (env : ReqIterEnv) (buffered : List Nat)
    (d : Durations) (now dl : Nat) (extra : List MonCycle) :
    ((requesterIter wake env).2 =
      (env.writeOk &&
        match env.readBytes with
        | none => false
        | some bs => env.id % U32MOD == beBytesToNat bs))
    ∧ (monitorRun true { deadline := dl, exited := false }
        (postExitCycles buffered d now ++ extra)).2 = buffered
    ∧ (monitorRun true { deadline := dl, exited := false }
        (postExitCycles buffered d now ++ extra)).1.exited = true
    ∧ monitorStep true { deadline := dl, exited := false }
        { ev := MonitorEvent.closed, durs := d, now := now } =
      ({ deadline := dl, exited := true }, []) :=
  ⟨requesterIter_continue_iff wake env,
   (monitorRun_postExit buffered d now dl extra).1,
   (monitorRun_postExit buffered d now dl extra).2, rfl⟩
